import Mathlib

/-!
Verification of the chromium session manager
(`packages/native/src/chromium_manager.rs`).

The manager keeps a process-wide registry (a mutex-guarded `HashMap`)
from session id strings to reference-counted browser connection
handles.  `launch_chromium_browser` builds a `chromiumoxide`
`BrowserConfig`, launches a browser, spawns an event-pump task,
generates a timestamp-derived id and inserts the handle;
`navigate_to_url`, `execute_js_in_browser`, `take_browser_screenshot`
and `get_page_content` look a handle up and drive the connection;
`close_chromium_browser` removes the entry.

The embedding below renders each of those functions as a Lean
function.  Network and filesystem effects (page creation, navigation,
script evaluation, capture, content retrieval, byte writing) are
passed in as explicit oracle functions returning `Except String`,
mirroring the fallible async calls of the source; the registry is
threaded explicitly as a value, and each function returns its result
together with the registry it leaves behind.  The lock discipline of
the source, which a value-level embedding cannot show, is captured
separately as per-function event traces (`navigateTrace` etc.) read
off the source text: where the guard is acquired, where the map is
read or written, which awaits run before the guard is dropped.
-/

/-- JSON-like value returned by script evaluation (`serde_json::Value`
as far as the claims need it). -/
inductive JsValue where
  | null
  | bool (b : Bool)
  | num (n : Int)
  | str (s : String)
deriving DecidableEq, Repr

/-- Page handle of the connection (`chromiumoxide::Page`); the claims
only need pages to be distinguishable values. -/
structure Page where
  url : String
deriving DecidableEq, Repr

/-- Result of `page.evaluate`: `EvaluationResult::value()` yields an
optional JSON value. -/
structure EvalResult where
  value : Option JsValue
deriving DecidableEq, Repr

/-- Browser connection handle (`Arc<Browser>`).  `headless` records the
head mode the connection was established in; `connId` stands for the
identity of the underlying browser process, so that distinct launches
yield distinguishable handles. -/
structure Browser where
  headless : Bool
  connId : Nat
deriving DecidableEq, Repr

/-- Launch options (`ChromiumConfig` in the source): all fields
optional. -/
structure ChromiumConfig where
  width : Option Nat
  height : Option Nat
  headless : Option Bool
  disable_default_args : Option Bool
deriving DecidableEq, Repr

/-- Return value of launch (`ChromiumInstance` in the source). -/
structure ChromiumInstance where
  id : String
  url : String
  port : Nat
deriving DecidableEq, Repr

/-- State of the `chromiumoxide` `BrowserConfig` builder, as far as the
source touches it.  Modelled from the library it wraps: a fresh
builder is in headless mode (`headless = true`) with no window size
set; `window_size w h` records the dimensions; `with_head` switches
the configuration to headed mode (`headless = false`). -/
structure BrowserConfig where
  window_size : Option (Nat × Nat)
  headless : Bool
deriving DecidableEq, Repr

/-- `BrowserConfig::builder()`: headless by default, no window size. -/
def BrowserConfig.builder : BrowserConfig :=
  { window_size := none, headless := true }

/-- `builder.window_size(w, h)`. -/
def BrowserConfig.windowSize (b : BrowserConfig) (w h : Nat) : BrowserConfig :=
  { b with window_size := some (w, h) }

/-- `builder.with_head()`: switch to headed (non-headless) mode. -/
def BrowserConfig.withHead (b : BrowserConfig) : BrowserConfig :=
  { b with headless := false }

/-- Error status of the N-API binding (`napi::Status` as used here). -/
inductive NapiStatus where
  | invalidArg
  | genericFailure
deriving DecidableEq, Repr

/-- Error value of the binding (`napi::Error::new(status, message)`). -/
structure NapiError where
  status : NapiStatus
  message : String
deriving DecidableEq, Repr

/-- Result type of every exported function (`napi::Result`). -/
abbrev NResult (α : Type) := Except NapiError α

/-- Error produced on a registry miss: the exact error every command
builds when `browsers.get(&instance_id)` returns `None`. -/
def notFoundError : NapiError :=
  ⟨NapiStatus.invalidArg, "Browser instance not found"⟩

/-- Error produced when the page set is empty in `execute_js_in_browser`,
`take_browser_screenshot` and `get_page_content`. -/
def noActivePageError : NapiError :=
  ⟨NapiStatus.genericFailure, "No active page found"⟩

/-- The global `BROWSERS` map: session id to browser handle.  The
`HashMap` is rendered as an association list; all operations below use
the first binding of a key, and the insert and remove operations keep
keys unique, as the `HashMap` does. -/
abbrev Registry := List (String × Browser)

/-- `HashMap::get`: the binding of `id`, if present. -/
def Registry.get : Registry → String → Option Browser
  | [], _ => none
  | (k, v) :: rest, id => if k = id then some v else Registry.get rest id

/-- `HashMap::insert`: replaces the binding of `id` if present,
otherwise adds one.  The source ignores the returned previous value. -/
def Registry.insert : Registry → String → Browser → Registry
  | [], id, h => [(id, h)]
  | (k, v) :: rest, id, h =>
    if k = id then (id, h) :: rest else (k, v) :: Registry.insert rest id h

/-- `HashMap::remove`: the removed binding (if any) and the remaining
map. -/
def Registry.removeGet : Registry → String → Option Browser × Registry
  | [], _ => (none, [])
  | (k, v) :: rest, id =>
    if k = id then (some v, rest)
    else
      let r := Registry.removeGet rest id
      (r.1, (k, v) :: r.2)

/-- Configuration-to-builder computation of `launch_chromium_browser`
(lines 35-54): substitute the full default configuration when no
configuration object is supplied, set the window size when both
dimensions are present, and call `with_head()` exactly when the
`headless` option is present and true. -/
def buildBrowserConfig (config : Option ChromiumConfig) : BrowserConfig :=
  let cfg := config.getD ⟨some 1920, some 1080, some false, some false⟩
  let b := BrowserConfig.builder
  let b := match cfg.width, cfg.height with
    | some w, some h => b.windowSize w h
    | _, _ => b
  match cfg.headless with
  | some hl => if hl then b.withHead else b
  | none => b

/-- Session id generation (line 72): `format!("chromium_{}", millis)`
for the current Unix time in milliseconds. -/
def mkSessionId (ts_millis : Nat) : String :=
  "chromium_" ++ Nat.repr ts_millis

/-- `launch_chromium_browser`.  `build` is the fallible
`browser_config.build()` validation; `launchConn` is
`Browser::launch`, which on success yields the identity of the new
browser process — the established connection carries the head mode the
configuration asked of the library.  `ts_millis` is the sampled
timestamp.  Returns the result together with the registry after the
insertion. -/
def launch_chromium_browser
    (build : BrowserConfig → Except String Unit)
    (launchConn : BrowserConfig → Except String Nat)
    (ts_millis : Nat) (reg : Registry)
    (config : Option ChromiumConfig) : NResult ChromiumInstance × Registry :=
  let browser_config := buildBrowserConfig config
  match build browser_config with
  | Except.error e =>
    (Except.error ⟨NapiStatus.genericFailure, "Failed to build config: " ++ e⟩, reg)
  | Except.ok _ =>
    match launchConn browser_config with
    | Except.error e =>
      (Except.error ⟨NapiStatus.genericFailure, "Failed to launch browser: " ++ e⟩, reg)
    | Except.ok conn =>
      let id := mkSessionId ts_millis
      let browser : Browser := ⟨browser_config.headless, conn⟩
      (Except.ok ⟨id, "about:blank", 9222⟩, Registry.insert reg id browser)

/-- `navigate_to_url` (lines 94-108).  `newPage` is
`browser.new_page(&url)`; `goto` is `page.goto(&url)`.  Looks the
handle up, creates a page bound to the url, navigates it, returns
`true`. -/
def navigate_to_url
    (newPage : Browser → String → Except String Page)
    (goto : Page → String → Except String Unit)
    (reg : Registry) (instance_id url : String) : NResult Bool × Registry :=
  match Registry.get reg instance_id with
  | none => (Except.error notFoundError, reg)
  | some browser =>
    match newPage browser url with
    | Except.error e =>
      (Except.error ⟨NapiStatus.genericFailure, "Failed to create page: " ++ e⟩, reg)
    | Except.ok page =>
      match goto page url with
      | Except.error e =>
        (Except.error ⟨NapiStatus.genericFailure, "Failed to navigate: " ++ e⟩, reg)
      | Except.ok _ => (Except.ok true, reg)

/-- `execute_js_in_browser` (lines 112-135).  `getPages` is
`browser.pages()` (the live page set); `evaluate` is
`page.evaluate(script)`; `serialize` is
`serde_json::to_string(&result.value())`.  Operates on the first page;
a serialization failure is replaced by the text of an empty object
literal. -/
def execute_js_in_browser
    (getPages : Browser → Except String (List Page))
    (evaluate : Page → String → Except String EvalResult)
    (serialize : Option JsValue → Except String String)
    (reg : Registry) (instance_id script : String) : NResult String × Registry :=
  match Registry.get reg instance_id with
  | none => (Except.error notFoundError, reg)
  | some browser =>
    match getPages browser with
    | Except.error e =>
      (Except.error ⟨NapiStatus.genericFailure, "Failed to get pages: " ++ e⟩, reg)
    | Except.ok pages =>
      match pages.head? with
      | some page =>
        match evaluate page script with
        | Except.error e =>
          (Except.error ⟨NapiStatus.genericFailure, "Failed to execute JS: " ++ e⟩, reg)
        | Except.ok result =>
          let json_value := match serialize result.value with
            | Except.ok s => s
            | Except.error _ => "\x7b\x7d"
          (Except.ok json_value, reg)
      | none => (Except.error noActivePageError, reg)

/-- `take_browser_screenshot` (lines 139-162).  `capture` is
`page.screenshot(default params)`, yielding a byte buffer; `fsWrite`
is `std::fs::write(&output_path, bytes)`.  Operates on the first page;
returns the output path. -/
def take_browser_screenshot
    (getPages : Browser → Except String (List Page))
    (capture : Page → Except String (List Nat))
    (fsWrite : String → List Nat → Except String Unit)
    (reg : Registry) (instance_id output_path : String) : NResult String × Registry :=
  match Registry.get reg instance_id with
  | none => (Except.error notFoundError, reg)
  | some browser =>
    match getPages browser with
    | Except.error e =>
      (Except.error ⟨NapiStatus.genericFailure, "Failed to get pages: " ++ e⟩, reg)
    | Except.ok pages =>
      match pages.head? with
      | some page =>
        match capture page with
        | Except.error e =>
          (Except.error ⟨NapiStatus.genericFailure, "Failed to take screenshot: " ++ e⟩, reg)
        | Except.ok bytes =>
          match fsWrite output_path bytes with
          | Except.error e =>
            (Except.error ⟨NapiStatus.genericFailure, "Failed to write screenshot: " ++ e⟩, reg)
          | Except.ok _ => (Except.ok output_path, reg)
      | none => (Except.error noActivePageError, reg)

/-- `get_page_content` (lines 166-183).  `content` is
`page.content()`.  Operates on the first page; returns the document
markup. -/
def get_page_content
    (getPages : Browser → Except String (List Page))
    (content : Page → Except String String)
    (reg : Registry) (instance_id : String) : NResult String × Registry :=
  match Registry.get reg instance_id with
  | none => (Except.error notFoundError, reg)
  | some browser =>
    match getPages browser with
    | Except.error e =>
      (Except.error ⟨NapiStatus.genericFailure, "Failed to get pages: " ++ e⟩, reg)
    | Except.ok pages =>
      match pages.head? with
      | some page =>
        match content page with
        | Except.error e =>
          (Except.error ⟨NapiStatus.genericFailure, "Failed to get content: " ++ e⟩, reg)
        | Except.ok text => (Except.ok text, reg)
      | none => (Except.error noActivePageError, reg)

/-- `close_chromium_browser` (lines 187-196): remove the binding;
`true` if one was removed, the not-found error otherwise. -/
def close_chromium_browser (reg : Registry) (instance_id : String) :
    NResult Bool × Registry :=
  match Registry.removeGet reg instance_id with
  | (some _, rest) => (Except.ok true, rest)
  | (none, rest) => (Except.error notFoundError, rest)

/-!
Lock-discipline traces.  Each command body acquires the registry mutex
in its first statement (`BROWSERS.lock().await`) and binds the guard
to a local that lives to the end of the function, so the guard is
dropped only on return; the handle is obtained as a borrow
(`browsers.get`), never cloned out of the map.  The awaited network
calls therefore all run between the acquisition and the release.  The
traces below record, in source order, the lock and map events and the
awaited network operations of each command's success path (on an error
path the function returns early, dropping the guard at that point —
still after every await it executed). -/

/-- Event alphabet of the lock-discipline traces. -/
inductive RegEvent where
  | lockAcquire
  | lockRelease
  | mapRead
  | mapWrite
  | awaitNet (op : String)
deriving DecidableEq, Repr

/-- Events of `navigate_to_url`: lock, look up, await `new_page`,
await `goto`, drop the guard on return. -/
def navigateTrace : List RegEvent :=
  [RegEvent.lockAcquire, RegEvent.mapRead,
   RegEvent.awaitNet "new_page", RegEvent.awaitNet "goto",
   RegEvent.lockRelease]

/-- Events of `execute_js_in_browser`: lock, look up, await `pages`,
await `evaluate`, drop the guard on return. -/
def executeScriptTrace : List RegEvent :=
  [RegEvent.lockAcquire, RegEvent.mapRead,
   RegEvent.awaitNet "pages", RegEvent.awaitNet "evaluate",
   RegEvent.lockRelease]

/-- Events of `take_browser_screenshot`: lock, look up, await `pages`,
await `screenshot`, synchronous file write, drop the guard on
return. -/
def screenshotTrace : List RegEvent :=
  [RegEvent.lockAcquire, RegEvent.mapRead,
   RegEvent.awaitNet "pages", RegEvent.awaitNet "screenshot",
   RegEvent.lockRelease]

/-- Events of `get_page_content`: lock, look up, await `pages`, await
`content`, drop the guard on return. -/
def getContentTrace : List RegEvent :=
  [RegEvent.lockAcquire, RegEvent.mapRead,
   RegEvent.awaitNet "pages", RegEvent.awaitNet "content",
   RegEvent.lockRelease]

/-- Scan of a trace with the current lock-held flag: does some awaited
network operation run while the lock is held? -/
def heldDuringAwaitAux : Bool → List RegEvent → Bool
  | _, [] => false
  | _, RegEvent.lockAcquire :: rest => heldDuringAwaitAux true rest
  | _, RegEvent.lockRelease :: rest => heldDuringAwaitAux false rest
  | held, RegEvent.awaitNet _ :: rest => held || heldDuringAwaitAux held rest
  | held, RegEvent.mapRead :: rest => heldDuringAwaitAux held rest
  | held, RegEvent.mapWrite :: rest => heldDuringAwaitAux held rest

/-- Whether a trace awaits a network operation while the registry lock
is held. -/
def heldDuringAwait (tr : List RegEvent) : Bool :=
  heldDuringAwaitAux false tr

/-- Whether a trace contains a map mutation event. -/
def writesMap (tr : List RegEvent) : Bool :=
  tr.any fun e => e = RegEvent.mapWrite

/-!
Injectivity of the decimal rendering used by session id generation.
`Nat.repr` renders via `Nat.toDigitsCore`; the value of the rendered
digit run recovers the number, so the rendering is injective, and so
is `mkSessionId`.
-/

/-- Numeric value of a decimal digit character. -/
def charDigitVal (c : Char) : Nat := c.toNat - 48

/-- Value of a most-significant-first list of decimal digit
characters. -/
def digitsVal (ds : List Char) : Nat :=
  ds.foldl (fun acc c => acc * 10 + charDigitVal c) 0

theorem digitsVal_append (ds : List Char) (c : Char) :
    digitsVal (ds ++ [c]) = digitsVal ds * 10 + charDigitVal c := by
  simp [digitsVal, List.foldl_append]

theorem charDigitVal_digitChar {m : Nat} (hm : m < 10) :
    charDigitVal (Nat.digitChar m) = m := by
  interval_cases m <;> decide

theorem toDigitsCore_val (f : Nat) :
    ∀ (m : Nat) (tl : List Char), m < f →
      ∃ run : List Char,
        digitsVal run = m ∧ Nat.toDigitsCore 10 f m tl = run ++ tl := by
  induction f with
  | zero => intro m tl hm; omega
  | succ f ih =>
    intro m tl hm
    by_cases h10 : m / 10 = 0
    · refine ⟨[Nat.digitChar (m % 10)], ?_, ?_⟩
      · have hd : m % 10 < 10 := Nat.mod_lt m (by omega)
        simp [digitsVal, charDigitVal_digitChar hd]
        omega
      · simp [Nat.toDigitsCore, h10]
    · obtain ⟨run, hval, hrun⟩ :=
        ih (m / 10) (Nat.digitChar (m % 10) :: tl) (by omega)
      refine ⟨run ++ [Nat.digitChar (m % 10)], ?_, ?_⟩
      · have hd : m % 10 < 10 := Nat.mod_lt m (by omega)
        rw [digitsVal_append, hval, charDigitVal_digitChar hd]
        omega
      · simp [Nat.toDigitsCore, h10, hrun]

theorem digitsVal_toDigits (n : Nat) : digitsVal (Nat.toDigits 10 n) = n := by
  obtain ⟨run, hval, hrun⟩ := toDigitsCore_val (n + 1) n [] (Nat.lt_succ_self n)
  rw [Nat.toDigits, hrun, List.append_nil]
  exact hval

theorem natRepr_injective : Function.Injective Nat.repr := by
  intro a b h
  have hdata : Nat.toDigits 10 a = Nat.toDigits 10 b := by
    have h2 := congrArg String.data h
    simpa [Nat.repr, List.asString] using h2
  calc a = digitsVal (Nat.toDigits 10 a) := (digitsVal_toDigits a).symm
    _ = digitsVal (Nat.toDigits 10 b) := by rw [hdata]
    _ = b := digitsVal_toDigits b

theorem mkSessionId_injective : Function.Injective mkSessionId := by
  intro a b h
  apply natRepr_injective
  have hdata := congrArg String.data h
  simp only [mkSessionId, String.data_append] at hdata
  have h2 : (Nat.repr a).data = (Nat.repr b).data :=
    List.append_cancel_left hdata
  cases ha : Nat.repr a
  cases hb : Nat.repr b
  rw [ha, hb] at h2
  exact congrArg String.mk h2

/-!
Helper lemmas shared by the claim theorems.
-/

/-- Two strings whose first characters disagree are different, even
after appending an arbitrary suffix to the first. -/
theorem append_ne_of_head (pre suf t : String) (c c' : Char)
    (hpre : pre.data.head? = some c) (ht : t.data.head? = some c')
    (hne : c ≠ c') : pre ++ suf ≠ t := by
  intro h
  have h2 := congrArg (fun s => s.data.head?) h
  simp only [String.data_append, List.head?_append, hpre, Option.or] at h2
  rw [ht] at h2
  exact hne (Option.some.inj h2)

/-- The value removed by `Registry.removeGet` is the binding
`Registry.get` finds. -/
theorem removeGet_fst (reg : Registry) (id : String) :
    (Registry.removeGet reg id).1 = Registry.get reg id := by
  induction reg with
  | nil => rfl
  | cons kv rest ih =>
    obtain ⟨k, v⟩ := kv
    by_cases hk : k = id <;> simp [Registry.removeGet, Registry.get, hk, ih]

/-- Removing an absent key leaves the registry unchanged. -/
theorem removeGet_absent (reg : Registry) (id : String)
    (h : Registry.get reg id = none) : (Registry.removeGet reg id).2 = reg := by
  induction reg with
  | nil => rfl
  | cons kv rest ih =>
    obtain ⟨k, v⟩ := kv
    by_cases hk : k = id
    · simp [Registry.get, hk] at h
    · simp [Registry.get, hk] at h
      simp [Registry.removeGet, hk, ih h]

/-- A key outside the key set of the registry has no binding. -/
theorem get_eq_none_of_not_mem (reg : Registry) (id : String)
    (h : id ∉ reg.map Prod.fst) : Registry.get reg id = none := by
  induction reg with
  | nil => rfl
  | cons kv rest ih =>
    obtain ⟨k, v⟩ := kv
    simp only [List.map_cons, List.mem_cons] at h
    push_neg at h
    have hk : ¬ k = id := fun hk => h.1 hk.symm
    simp [Registry.get, hk, ih h.2]

/-- With unique keys, removing a key removes its only binding. -/
theorem get_removeGet_self (reg : Registry) (id : String)
    (hnd : (reg.map Prod.fst).Nodup) :
    Registry.get (Registry.removeGet reg id).2 id = none := by
  induction reg with
  | nil => rfl
  | cons kv rest ih =>
    obtain ⟨k, v⟩ := kv
    simp only [List.map_cons, List.nodup_cons] at hnd
    by_cases hk : k = id
    · subst hk
      simp only [Registry.removeGet, if_pos rfl]
      exact get_eq_none_of_not_mem rest k hnd.1
    · simp [Registry.removeGet, Registry.get, hk, ih hnd.2]

/-!
Claim theorems.
-/

/-- C1 (counterexample).  The claim says the registry lock is released
immediately after the lookup and never held across an awaited network
operation.  On the source it is false: in `navigate_to_url` the mutex
guard bound on line 95 lives to the end of the function, so the
awaited `new_page` and `goto` calls run while the lock is held — the
trace of the function awaits network operations with the lock held. -/
theorem C1_counterexample : ¬ (heldDuringAwait navigateTrace = false) := by
  decide

/-- C1 (amended).  In each of the four command operations the registry
lock is acquired first, every awaited network operation of the body
runs while the lock is held, and the lock is released only when the
function returns (the final event of each trace); the handle is
borrowed from the map under the lock rather than cloned out of it. -/
theorem C1_amended :
    (heldDuringAwait navigateTrace = true ∧
      navigateTrace.getLast? = some RegEvent.lockRelease ∧
      navigateTrace.head? = some RegEvent.lockAcquire) ∧
    (heldDuringAwait executeScriptTrace = true ∧
      executeScriptTrace.getLast? = some RegEvent.lockRelease ∧
      executeScriptTrace.head? = some RegEvent.lockAcquire) ∧
    (heldDuringAwait screenshotTrace = true ∧
      screenshotTrace.getLast? = some RegEvent.lockRelease ∧
      screenshotTrace.head? = some RegEvent.lockAcquire) ∧
    (heldDuringAwait getContentTrace = true ∧
      getContentTrace.getLast? = some RegEvent.lockRelease ∧
      getContentTrace.head? = some RegEvent.lockAcquire) := by
  decide

/-- C2 (code bug).  The claim — the head mode of the established
connection equals the requested `headless` option — is the evident
intent (the option is named `headless`), but lines 50-54 call
`with_head()` exactly when `headless` is `true`: launching with
`headless = true` yields a headed connection, and launching with
`headless = false` leaves the builder in its default headless mode.
Evaluated here on a full launch with succeeding build and launch
oracles at timestamp 0 on an empty registry: the registered connection
has `headless = false` when `true` was requested and `headless = true`
when `false` was requested. -/
theorem C2_headless_inverted :
    ((launch_chromium_browser (fun _ => Except.ok ()) (fun _ => Except.ok 0) 0 []
        (some ⟨none, none, some true, none⟩)).2.get (mkSessionId 0)
      = some ⟨false, 0⟩) ∧
    ((launch_chromium_browser (fun _ => Except.ok ()) (fun _ => Except.ok 0) 0 []
        (some ⟨none, none, some false, none⟩)).2.get (mkSessionId 0)
      = some ⟨true, 0⟩) ∧
    (buildBrowserConfig (some ⟨none, none, some true, none⟩)).headless = false ∧
    (buildBrowserConfig (some ⟨none, none, some false, none⟩)).headless = true := by
  decide

/-- `navigate_to_url` never produces the empty-page-set error: its
only failures are the not-found error and the prefixed create-page and
navigate errors, whose messages differ from the empty-page-set
message. -/
theorem navigate_no_noActivePage
    (newPage : Browser → String → Except String Page)
    (goto : Page → String → Except String Unit)
    (reg : Registry) (instance_id url : String) :
    (navigate_to_url newPage goto reg instance_id url).1
      ≠ Except.error noActivePageError := by
  intro h
  unfold navigate_to_url at h
  cases hg : Registry.get reg instance_id <;> simp only [hg] at h
  case none =>
    exact absurd (congrArg NapiError.status (Except.error.inj h)) (by decide)
  case some browser =>
    cases hnp : newPage browser url <;> simp only [hnp] at h
    case error e =>
      have hmsg : "Failed to create page: " ++ e = "No active page found" :=
        congrArg NapiError.message (Except.error.inj h)
      exact append_ne_of_head "Failed to create page: " e
        "No active page found" 'F' 'N' rfl rfl (by decide) hmsg
    case ok page =>
      cases hgt : goto page url <;> simp only [hgt] at h
      case error e =>
        have hmsg : "Failed to navigate: " ++ e = "No active page found" :=
          congrArg NapiError.message (Except.error.inj h)
        exact append_ne_of_head "Failed to navigate: " e
          "No active page found" 'F' 'N' rfl rfl (by decide) hmsg
      case ok _ => exact Except.noConfusion h

/-- C3 (counterexample).  The claim says all four commands fail with
`NoActivePage` on a session whose page set is empty.  For the three
page-reading commands this holds, but `navigate_to_url` never consults
the page set: it creates a fresh page.  Concretely, with session
"sess" registered and its live page set empty (the pages oracle
returns the empty list, as the first conjunct witnesses through
`execute_js_in_browser`), navigate succeeds with `true` instead of
failing with `NoActivePage`. -/
theorem C3_counterexample :
    (execute_js_in_browser (fun _ => Except.ok []) (fun _ _ => Except.ok ⟨none⟩)
        (fun _ => Except.ok "null") [("sess", ⟨true, 0⟩)] "sess" "1+1").1
      = Except.error noActivePageError ∧
    (navigate_to_url (fun _ _ => Except.ok ⟨"https://example.com"⟩)
        (fun _ _ => Except.ok ())
        [("sess", ⟨true, 0⟩)] "sess" "https://example.com").1 = Except.ok true :=
  ⟨rfl, rfl⟩

/-- C3 (amended).  On a registered session whose live page set is
empty, `execute_js_in_browser`, `take_browser_screenshot` and
`get_page_content` fail with the `NoActivePage` error; `navigate_to_url`
does not — it opens a new page and never produces that error. -/
theorem C3_amended
    (getPages : Browser → Except String (List Page))
    (evaluate : Page → String → Except String EvalResult)
    (serialize : Option JsValue → Except String String)
    (capture : Page → Except String (List Nat))
    (fsWrite : String → List Nat → Except String Unit)
    (content : Page → Except String String)
    (newPage : Browser → String → Except String Page)
    (goto : Page → String → Except String Unit)
    (reg : Registry) (id script path url : String) (browser : Browser)
    (hreg : Registry.get reg id = some browser)
    (hpages : getPages browser = Except.ok []) :
    (execute_js_in_browser getPages evaluate serialize reg id script).1
        = Except.error noActivePageError ∧
    (take_browser_screenshot getPages capture fsWrite reg id path).1
        = Except.error noActivePageError ∧
    (get_page_content getPages content reg id).1
        = Except.error noActivePageError ∧
    (navigate_to_url newPage goto reg id url).1
        ≠ Except.error noActivePageError := by
  refine ⟨?_, ?_, ?_, navigate_no_noActivePage newPage goto reg id url⟩ <;>
    simp [execute_js_in_browser, take_browser_screenshot, get_page_content,
      hreg, hpages]

/-- C3 (witness).  The amended statement applied at a concrete
one-session registry with an empty live page set. -/
theorem C3_witness :
    (execute_js_in_browser (fun _ => Except.ok []) (fun _ _ => Except.ok ⟨none⟩)
        (fun _ => Except.ok "null") [("w", ⟨false, 3⟩)] "w" "1+1").1
      = Except.error noActivePageError ∧
    (take_browser_screenshot (fun _ => Except.ok []) (fun _ => Except.ok [])
        (fun _ _ => Except.ok ()) [("w", ⟨false, 3⟩)] "w" "/tmp/out.png").1
      = Except.error noActivePageError ∧
    (get_page_content (fun _ => Except.ok []) (fun _ => Except.ok "")
        [("w", ⟨false, 3⟩)] "w").1
      = Except.error noActivePageError ∧
    (navigate_to_url (fun _ _ => Except.ok ⟨"https://example.com"⟩)
        (fun _ _ => Except.ok ())
        [("w", ⟨false, 3⟩)] "w" "https://example.com").1
      ≠ Except.error noActivePageError :=
  C3_amended (fun _ => Except.ok []) (fun _ _ => Except.ok ⟨none⟩)
    (fun _ => Except.ok "null") (fun _ => Except.ok [])
    (fun _ _ => Except.ok ()) (fun _ => Except.ok "")
    (fun _ _ => Except.ok ⟨"https://example.com"⟩) (fun _ _ => Except.ok ())
    [("w", ⟨false, 3⟩)] "w" "1+1" "/tmp/out.png" "https://example.com"
    ⟨false, 3⟩ rfl rfl

/-- C4 (counterexample).  The claim says registration fails if and
only if the id is already present and never silently overwrites.  The
source registers with a bare `HashMap::insert` (line 83) whose return
value is ignored: launching at timestamp 7 against a registry that
already maps `chromium_7` to the handle `⟨true, 0⟩` reports success
and leaves the new handle `⟨true, 1⟩` in place of the original. -/
theorem C4_counterexample :
    ((launch_chromium_browser (fun _ => Except.ok ()) (fun _ => Except.ok 1) 7
        [(mkSessionId 7, ⟨true, 0⟩)] none).1
      = Except.ok ⟨mkSessionId 7, "about:blank", 9222⟩) ∧
    ((launch_chromium_browser (fun _ => Except.ok ()) (fun _ => Except.ok 1) 7
        [(mkSessionId 7, ⟨true, 0⟩)] none).2.get (mkSessionId 7)
      = some ⟨true, 1⟩) := by
  exact ⟨rfl, by decide⟩

/-- C4 (amended).  Registration inserts unconditionally: the new
handle replaces any existing binding of the id, every other binding is
untouched, and launch reports success regardless of whether the id was
already present (with succeeding build and launch oracles it always
returns the instance record). -/
theorem C4_amended (reg : Registry) (id id' : String) (h : Browser) :
    Registry.get (Registry.insert reg id h) id'
      = (if id' = id then some h else Registry.get reg id') ∧
    ∀ (ts : Nat) (reg2 : Registry) (config : Option ChromiumConfig),
      (launch_chromium_browser (fun _ => Except.ok ()) (fun _ => Except.ok 0)
          ts reg2 config).1
        = Except.ok ⟨mkSessionId ts, "about:blank", 9222⟩ := by
  constructor
  · induction reg with
    | nil =>
      by_cases hii : id' = id
      · simp [Registry.insert, Registry.get, hii]
      · have hii2 : ¬ id = id' := fun hh => hii hh.symm
        simp [Registry.insert, Registry.get, hii, hii2]
    | cons kv rest ih =>
      obtain ⟨k, v⟩ := kv
      by_cases hk : k = id
      · subst hk
        by_cases hii : id' = k
        · subst hii; simp [Registry.insert, Registry.get]
        · have hkii : ¬ k = id' := fun hh => hii hh.symm
          simp [Registry.insert, Registry.get, hii, hkii]
      · by_cases hki : k = id'
        · subst hki
          simp [Registry.insert, Registry.get, hk,
            fun hh : k = id => hk hh]
        · simp [Registry.insert, Registry.get, hk, hki, ih]
  · intro ts reg2 config
    rfl

/-- C5 (counterexample).  The claim says launching N sessions in
sequence always yields N pairwise distinct ids.  The id is the launch
timestamp in milliseconds (line 72): two sequential launches falling
in the same millisecond (here both at timestamp 5) return the very
same id `chromium_5`, so the two ids are not pairwise distinct. -/
theorem C5_counterexample :
    ((launch_chromium_browser (fun _ => Except.ok ()) (fun _ => Except.ok 0)
        5 [] none).1 = Except.ok ⟨"chromium_5", "about:blank", 9222⟩) ∧
    ((launch_chromium_browser (fun _ => Except.ok ()) (fun _ => Except.ok 1) 5
        (launch_chromium_browser (fun _ => Except.ok ()) (fun _ => Except.ok 0)
          5 [] none).2 none).1
      = Except.ok ⟨"chromium_5", "about:blank", 9222⟩) ∧
    ¬ List.Pairwise (· ≠ ·) (List.map mkSessionId [5, 5]) := by
  refine ⟨rfl, rfl, ?_⟩
  decide

/-- C5 (amended).  Sequential launches whose sampled millisecond
timestamps are pairwise distinct yield pairwise distinct session ids:
the id generation is injective in the timestamp. -/
theorem C5_amended (timestamps : List Nat)
    (hts : timestamps.Pairwise (· ≠ ·)) :
    (timestamps.map mkSessionId).Pairwise (· ≠ ·) := by
  refine List.Pairwise.map mkSessionId ?_ hts
  intro a b hab hcontra
  exact hab (mkSessionId_injective hcontra)

/-- C5 (witness).  The amended statement applied at the concrete
timestamp list `[3, 5]`. -/
theorem C5_witness :
    List.Pairwise (· ≠ ·) ([3, 5] : List Nat) ∧
    (([3, 5] : List Nat).map mkSessionId).Pairwise (· ≠ ·) :=
  ⟨by decide, C5_amended [3, 5] (by decide)⟩

/-- C6 (confirmed).  On a registered session with at least one page,
if the script evaluates successfully but serializing the result value
fails, `execute_js_in_browser` returns the empty object literal and
reports success (lines 128-131: `unwrap_or_else(|_| String::from("{}"))`),
swallowing the serialization error. -/
theorem C6_serialization_fallback
    (getPages : Browser → Except String (List Page))
    (evaluate : Page → String → Except String EvalResult)
    (serialize : Option JsValue → Except String String)
    (reg : Registry) (id script : String) (browser : Browser)
    (page : Page) (rest : List Page) (result : EvalResult) (e : String)
    (hreg : Registry.get reg id = some browser)
    (hpages : getPages browser = Except.ok (page :: rest))
    (heval : evaluate page script = Except.ok result)
    (hser : serialize result.value = Except.error e) :
    (execute_js_in_browser getPages evaluate serialize reg id script).1
      = Except.ok "\x7b\x7d" := by
  simp [execute_js_in_browser, hreg, hpages, heval, hser]

/-- C6 (witness).  The theorem applied at a session with one page and
a serializer that fails. -/
theorem C6_witness :
    (execute_js_in_browser (fun _ => Except.ok [⟨"https://example.com"⟩])
        (fun _ _ => Except.ok ⟨some JsValue.null⟩)
        (fun _ => Except.error "key must be a string")
        [("s", ⟨true, 0⟩)] "s" "document.title").1
      = Except.ok "\x7b\x7d" :=
  C6_serialization_fallback (fun _ => Except.ok [⟨"https://example.com"⟩])
    (fun _ _ => Except.ok ⟨some JsValue.null⟩)
    (fun _ => Except.error "key must be a string")
    [("s", ⟨true, 0⟩)] "s" "document.title" ⟨true, 0⟩
    ⟨"https://example.com"⟩ [] ⟨some JsValue.null⟩ "key must be a string"
    rfl rfl rfl rfl

/-- Characterization of `close_chromium_browser`: the result is
decided by the lookup, and the resulting registry is the remainder
left by the removal. -/
theorem close_eq (reg : Registry) (id : String) :
    (close_chromium_browser reg id).1 =
      (match Registry.get reg id with
       | some _ => Except.ok true
       | none => Except.error notFoundError) ∧
    (close_chromium_browser reg id).2 = (Registry.removeGet reg id).2 := by
  rw [← removeGet_fst]
  unfold close_chromium_browser
  rcases Registry.removeGet reg id with ⟨o, rest⟩
  cases o <;> exact ⟨rfl, rfl⟩

/-- C7 (confirmed).  With unique registry keys, `close` on a present
id returns `true` and removes the binding, so a second close of the
same id fails with the not-found error; `close` on an absent id fails
with the not-found error and leaves the registry unchanged. -/
theorem C7_close (reg : Registry) (id : String)
    (hnd : (reg.map Prod.fst).Nodup) :
    (∀ b, Registry.get reg id = some b →
      (close_chromium_browser reg id).1 = Except.ok true ∧
      Registry.get (close_chromium_browser reg id).2 id = none ∧
      (close_chromium_browser (close_chromium_browser reg id).2 id).1
        = Except.error notFoundError) ∧
    (Registry.get reg id = none →
      (close_chromium_browser reg id).1 = Except.error notFoundError ∧
      (close_chromium_browser reg id).2 = reg) := by
  obtain ⟨h1, h2⟩ := close_eq reg id
  constructor
  · intro b hb
    have hafter : Registry.get (close_chromium_browser reg id).2 id = none := by
      rw [h2]; exact get_removeGet_self reg id hnd
    refine ⟨by rw [h1, hb], hafter, ?_⟩
    obtain ⟨h1', _⟩ := close_eq (close_chromium_browser reg id).2 id
    rw [h1', hafter]
  · intro hb
    refine ⟨by rw [h1, hb], ?_⟩
    rw [h2]
    exact removeGet_absent reg id hb

/-- C7 (witness).  The theorem applied at the one-session registry
`[("x", ⟨true, 0⟩)]`, once at the present id "x" (with the double
close) and once at the absent id "y". -/
theorem C7_witness :
    ((close_chromium_browser [("x", ⟨true, 0⟩)] "x").1 = Except.ok true ∧
      Registry.get (close_chromium_browser [("x", ⟨true, 0⟩)] "x").2 "x" = none ∧
      (close_chromium_browser
          (close_chromium_browser [("x", ⟨true, 0⟩)] "x").2 "x").1
        = Except.error notFoundError) ∧
    ((close_chromium_browser [("x", ⟨true, 0⟩)] "y").1
        = Except.error notFoundError ∧
      (close_chromium_browser [("x", ⟨true, 0⟩)] "y").2 = [("x", ⟨true, 0⟩)]) :=
  ⟨(C7_close [("x", ⟨true, 0⟩)] "x" (by decide)).1 ⟨true, 0⟩ rfl,
   (C7_close [("x", ⟨true, 0⟩)] "y" (by decide)).2 rfl⟩

/-- C8 (confirmed).  No command operation modifies the registry map:
whatever any oracle returns — success or failure — each of the four
commands hands back the registry it was given, and no command trace
contains a map-write event, so a failed command leaves the session
registered (still Active). -/
theorem C8_commands_preserve_registry
    (newPage : Browser → String → Except String Page)
    (goto : Page → String → Except String Unit)
    (getPages : Browser → Except String (List Page))
    (evaluate : Page → String → Except String EvalResult)
    (serialize : Option JsValue → Except String String)
    (capture : Page → Except String (List Nat))
    (fsWrite : String → List Nat → Except String Unit)
    (content : Page → Except String String)
    (reg : Registry) (id url script path : String) :
    (navigate_to_url newPage goto reg id url).2 = reg ∧
    (execute_js_in_browser getPages evaluate serialize reg id script).2 = reg ∧
    (take_browser_screenshot getPages capture fsWrite reg id path).2 = reg ∧
    (get_page_content getPages content reg id).2 = reg ∧
    writesMap navigateTrace = false ∧
    writesMap executeScriptTrace = false ∧
    writesMap screenshotTrace = false ∧
    writesMap getContentTrace = false := by
  refine ⟨?_, ?_, ?_, ?_, by decide, by decide, by decide, by decide⟩
  · unfold navigate_to_url
    repeat' split
    all_goals rfl
  · unfold execute_js_in_browser
    repeat' split
    all_goals rfl
  · unfold take_browser_screenshot
    repeat' split
    all_goals rfl
  · unfold get_page_content
    repeat' split
    all_goals rfl

/-- C9 (confirmed).  The `disable_default_args` option is destructured
but never read (line 27, lines 35-57): two launch configurations that
differ only in this field build the same connection parameters, and a
full launch from them — same oracles, same timestamp, same registry —
returns identical results and identical registries. -/
theorem C9_disable_default_args_no_effect
    (build : BrowserConfig → Except String Unit)
    (launchConn : BrowserConfig → Except String Nat)
    (ts : Nat) (reg : Registry)
    (w h : Option Nat) (hl : Option Bool) (d1 d2 : Option Bool) :
    buildBrowserConfig (some ⟨w, h, hl, d1⟩)
      = buildBrowserConfig (some ⟨w, h, hl, d2⟩) ∧
    launch_chromium_browser build launchConn ts reg (some ⟨w, h, hl, d1⟩)
      = launch_chromium_browser build launchConn ts reg (some ⟨w, h, hl, d2⟩) :=
  ⟨rfl, rfl⟩

/-- C10 (confirmed).  When a configuration object is supplied, the
window size is set exactly when both dimensions are present (lines
44-48) — a single present dimension sets nothing, and a missing field
is not replaced by its documented default; the documented defaults
(1920×1080, headless false) enter only through `unwrap_or` when the
configuration object is entirely absent (lines 35-40). -/
theorem C10_window_size_partial_config (c : ChromiumConfig) :
    (buildBrowserConfig (some c)).window_size
      = (match c.width, c.height with
         | some w, some h => some (w, h)
         | _, _ => none) ∧
    buildBrowserConfig none
      = buildBrowserConfig (some ⟨some 1920, some 1080, some false, some false⟩) ∧
    (buildBrowserConfig none).window_size = some (1920, 1080) := by
  refine ⟨?_, rfl, rfl⟩
  obtain ⟨w, h, hl, d⟩ := c
  rcases w with _ | w <;> rcases h with _ | h <;>
    rcases hl with _ | hb <;>
      first
        | rfl
        | (rcases hb with _ | _ <;> rfl)
